import Mathlib

/-!
# System-Monitor sampling-and-history engine: a shallow embedding

This file embeds the sampling core of the System-Monitor application
(`src/lib.rs`, `src/main.rs`) in Lean and proves properties of it.

Numeric conventions: the Rust code stores samples as `f32` and counters as
`u64`.  Samples here are modelled as exact rationals (`ℚ`) and counters as
`ℕ`; every concrete computation appearing in the properties below
(`4/8*100`, `50/100`, `80*8/1000000`, `h - h/2`, …) is exact in `f32` as
well, so the rational model agrees with the floating-point code on them.
All compile-time metric features (`network`, `battery`, `disk`) are taken
as enabled, which is the configuration the specification describes.
-/

/-! ## lib.rs -/

/-- One network interface as seen through a `Networks` handle after a
refresh: `received`/`transmitted` are the bytes seen since the previous
refresh, `totalReceived`/`totalTransmitted` the cumulative counters
(sysinfo's `NetworkData` accessors used by `lib.rs`). -/
structure NetData where
  received : ℕ
  transmitted : ℕ
  totalReceived : ℕ
  totalTransmitted : ℕ
deriving Repr, DecidableEq

/-- `network::network_deltas` (src/lib.rs lines 68–78): sum the
per-interval `received()` / `transmitted()` bytes over all interfaces. -/
def network_deltas (networks : List NetData) : ℕ × ℕ :=
  (networks.foldl (fun rx d => rx + d.received) 0,
   networks.foldl (fun tx d => tx + d.transmitted) 0)

/-- One volume as seen through a `Disks` handle (sysinfo's `Disk`
accessors used by `lib.rs`). -/
structure DiskData where
  totalSpace : ℕ
  availableSpace : ℕ
deriving Repr, DecidableEq

/-- `disk::get_disk_usage` (src/lib.rs lines 116–135): sum total and used
space over all volumes, percentage `used/total*100` guarded to `0` when
the total is `0`, and GiB figures by integer division. -/
def get_disk_usage (disks : List DiskData) : ℚ × ℕ × ℕ :=
  let total_space : ℕ := disks.foldl (fun a d => a + d.totalSpace) 0
  let used_space : ℕ := disks.foldl (fun a d => a + (d.totalSpace - d.availableSpace)) 0
  let percent : ℚ := if total_space > 0 then (used_space : ℚ) / (total_space : ℚ) * 100 else 0
  (percent, used_space / 1073741824, total_space / 1073741824)

/-! ## main.rs: state -/

/-- The three tabs of `main.rs` (`enum Tab`). -/
inductive Tab where
  | System
  | Network
  | Power
deriving Repr, DecidableEq

/-- `struct State` of src/main.rs (lines 33–67) with every metric feature
enabled.  The `sys`, `networks` and `disks` handles are the external
telemetry provider; their successive readings enter the model as the
`ProviderSample` consumed by `new`/`update` below, so they are not fields
of the embedded state. -/
structure State where
  cpu : ℚ
  used_mem_mb : ℕ
  total_mem_mb : ℕ
  current_tab : Tab
  cpu_history : List ℚ
  ram_history : List ℚ
  down_mbps : ℚ
  up_mbps : ℚ
  down_history : List ℚ
  up_history : List ℚ
  battery_percent : ℚ
  battery_charging : Bool
  battery_history : List ℚ
  disk_percent : ℚ
  disk_used_gb : ℕ
  disk_total_gb : ℕ
  disk_history : List ℚ
deriving Repr, DecidableEq

/-- What one round of provider refreshes yields: the values the `sysinfo`
handles expose to `new`/`update` after `refresh_cpu_usage()`,
`refresh_memory()`, `networks.refresh(true)`, `get_battery_info()` and
`disks.refresh(true)`.  Memory is in the provider's native unit (KiB),
divided by 1024 by the Sampler. -/
structure ProviderSample where
  global_cpu_usage : ℚ
  used_memory : ℕ
  total_memory : ℕ
  networks : List NetData
  battery : ℚ × Bool
  disks : List DiskData
deriving Repr, DecidableEq

/-- `State::HISTORY` (src/main.rs line 566): rolling-history capacity. -/
def HISTORY : ℕ := 120

/-- `State::trim_history` (src/main.rs lines 603–608): when the buffer
exceeds the capacity, drain the excess entries from the head. -/
def trim_history (history : List ℚ) : List ℚ :=
  if history.length > HISTORY then history.drop (history.length - HISTORY) else history

/-- One `RollingHistory` push as `push_samples` performs it: `Vec::push`
at the tail followed by `trim_history`. -/
def push_sample (history : List ℚ) (v : ℚ) : List ℚ :=
  trim_history (history ++ [v])

/-- The RAM percentage `used/total*100` guarded to `0` when the total is
`0`, as computed identically in `State::push_samples` (src/main.rs lines
572–576) and in `view` (lines 200–204). -/
def ram_percent_of (used total : ℕ) : ℚ :=
  if total > 0 then (used : ℚ) / (total : ℚ) * 100 else 0

/-- `State::push_samples` (src/main.rs lines 568–601): push the current
scalar of every metric into its history and trim each history.  The six
sequential `push`+`trim` statements of the source touch pairwise disjoint
fields, so they are rendered as one simultaneous record update. -/
def State.push_samples (s : State) : State :=
  { s with
    cpu_history := push_sample s.cpu_history s.cpu,
    ram_history := push_sample s.ram_history (ram_percent_of s.used_mem_mb s.total_mem_mb),
    down_history := push_sample s.down_history s.down_mbps,
    up_history := push_sample s.up_history s.up_mbps,
    battery_history := push_sample s.battery_history s.battery_percent,
    disk_history := push_sample s.disk_history s.disk_percent }

/-- `fn new` (src/main.rs lines 79–136): build the initial state from a
first round of provider readings, then call `push_samples` once before
returning. -/
def new (p : ProviderSample) : State :=
  State.push_samples
    { cpu := p.global_cpu_usage
      used_mem_mb := p.used_memory / 1024
      total_mem_mb := p.total_memory / 1024
      current_tab := Tab.System
      cpu_history := []
      ram_history := []
      down_mbps := 0
      up_mbps := 0
      down_history := []
      up_history := []
      battery_percent := p.battery.1
      battery_charging := p.battery.2
      battery_history := []
      disk_percent := (get_disk_usage p.disks).1
      disk_used_gb := (get_disk_usage p.disks).2.1
      disk_total_gb := (get_disk_usage p.disks).2.2
      disk_history := [] }

/-- The two `Message` variants of src/main.rs.  A `tick` carries the
provider readings that the refresh calls at the top of `update` produce
(whatever they are — the code never inspects a refresh outcome). -/
inductive Message where
  | tick (p : ProviderSample)
  | tabSelected (t : Tab)

/-- `fn update` (src/main.rs lines 138–184).  `Tick`: refresh the
provider, store CPU/memory/network-rate/battery/disk readings into the
state, then `push_samples`.  `TabSelected`: assign `current_tab` only. -/
def update (s : State) (m : Message) : State :=
  match m with
  | Message.tick p =>
      State.push_samples
        { s with
          cpu := p.global_cpu_usage,
          used_mem_mb := p.used_memory / 1024,
          total_mem_mb := p.total_memory / 1024,
          down_mbps := ((network_deltas p.networks).1 : ℚ) * 8 / 1000000,
          up_mbps := ((network_deltas p.networks).2 : ℚ) * 8 / 1000000,
          battery_percent := p.battery.1,
          battery_charging := p.battery.2,
          disk_percent := (get_disk_usage p.disks).1,
          disk_used_gb := (get_disk_usage p.disks).2.1,
          disk_total_gb := (get_disk_usage p.disks).2.2 }
  | Message.tabSelected t => { s with current_tab := t }

/-- Run the event loop: fold `update` over a list of messages. -/
def run (s : State) (ms : List Message) : State :=
  ms.foldl update s

/-! ## Sparkline (main.rs lines 611–665) -/

/-- `Sparkline::draw` (src/main.rs lines 620–659), reduced to the polyline
it builds: the guard `data.len() < 2 || max_value <= 0` yields the empty
path; otherwise point `i` is `(i * step_x, height - ratio * height)` with
`step_x = width / (len - 1)` and `ratio` the zero-guarded normalisation of
`value.clamp(0.0, max_value)`.  `width`/`height` are the canvas bounds. -/
def sparklinePoints (data : List ℚ) (maxValue width height : ℚ) : List (ℚ × ℚ) :=
  if data.length < 2 ∨ maxValue ≤ 0 then []
  else
    let stepX := if data.length > 1 then width / ((data.length : ℚ) - 1) else width
    data.enum.map (fun iv =>
      let x := (iv.1 : ℚ) * stepX
      let clamped := min (max iv.2 0) maxValue
      let ratio := if maxValue > 0 then clamped / maxValue else 0
      (x, height - ratio * height))

/-! ## Provider-side network refresh (modelled) -/

/-- A pair of cumulative byte counters (received, transmitted), the
spec's `CounterPair`. -/
structure CounterPair where
  rx : ℕ
  tx : ℕ
deriving Repr, DecidableEq

/-- Modelled from the spec: the network part of the telemetry provider
(sysinfo's `Networks::refresh`, external to this repository).  Section 6
of the spec has the provider yield, per interface, the bytes
`(received, transmitted)` of the last refresh interval next to the
cumulative totals; the interval figure is the difference between the
current cumulative counters and those of the previous refresh. -/
def refresh_network (previous current : CounterPair) : NetData :=
  { received := current.rx - previous.rx
    transmitted := current.tx - previous.tx
    totalReceived := current.rx
    totalTransmitted := current.tx }

/-! ## Per-tick sample values -/

/-- Value pushed into `cpu_history` on a tick carrying sample `p`. -/
def cpuVal (p : ProviderSample) : ℚ := p.global_cpu_usage

/-- Value pushed into `ram_history` on a tick carrying sample `p`. -/
def ramVal (p : ProviderSample) : ℚ :=
  ram_percent_of (p.used_memory / 1024) (p.total_memory / 1024)

/-- Value pushed into `down_history` on a tick carrying sample `p`. -/
def downVal (p : ProviderSample) : ℚ :=
  ((network_deltas p.networks).1 : ℚ) * 8 / 1000000

/-- Value pushed into `up_history` on a tick carrying sample `p`. -/
def upVal (p : ProviderSample) : ℚ :=
  ((network_deltas p.networks).2 : ℚ) * 8 / 1000000

/-- Value pushed into `battery_history` on a tick carrying sample `p`. -/
def batteryVal (p : ProviderSample) : ℚ := p.battery.1

/-- Value pushed into `disk_history` on a tick carrying sample `p`. -/
def diskVal (p : ProviderSample) : ℚ := (get_disk_usage p.disks).1

/-! ## Concrete provider samples and helper predicates -/

/-- All six histories have the same length. -/
def all_hist_len_eq (s : State) : Prop :=
  s.ram_history.length = s.cpu_history.length ∧
  s.down_history.length = s.cpu_history.length ∧
  s.up_history.length = s.cpu_history.length ∧
  s.battery_history.length = s.cpu_history.length ∧
  s.disk_history.length = s.cpu_history.length

/-- A provider that returns `used_memory = 4096`, `total_memory = 8192`
(provider units), CPU at 37 %, and nothing on the optional channels. -/
def pC2 : ProviderSample :=
  { global_cpu_usage := 37
    used_memory := 4096
    total_memory := 8192
    networks := []
    battery := (100, false)
    disks := [] }

/-- The same provider sample, used as the startup reading for C3. -/
def pC3 : ProviderSample := pC2

/-- A normally-behaving provider sample: one network interface, one disk. -/
def pOk : ProviderSample :=
  { global_cpu_usage := 5
    used_memory := 2048
    total_memory := 8192
    networks := [⟨1000, 500, 1000, 500⟩]
    battery := (90, true)
    disks := [⟨100, 40⟩] }

/-- A tick on which the network refresh failed: the interface list yields
nothing.  `update` runs the same code path regardless — it never inspects
a refresh outcome. -/
def pFail : ProviderSample := { pOk with networks := [] }

/-- Six consecutive ticks, the network refresh failing on tick 5 only. -/
def c4ps : List ProviderSample := [pOk, pOk, pOk, pOk, pFail, pOk]

/-- A provider sample whose single interface went from cumulative
counters (100, 50) to (180, 70) since the previous refresh. -/
def pC5 : ProviderSample :=
  { global_cpu_usage := 0
    used_memory := 0
    total_memory := 0
    networks := [refresh_network ⟨100, 50⟩ ⟨180, 70⟩]
    battery := (100, false)
    disks := [] }

/-! ## Rolling-history lemmas -/

theorem trim_history_length (h : List ℚ) :
    (trim_history h).length = min h.length HISTORY := by
  unfold trim_history
  split
  · rw [List.length_drop]
    omega
  · rename_i hle
    omega

theorem push_sample_length (h : List ℚ) (v : ℚ) :
    (push_sample h v).length = min (h.length + 1) HISTORY := by
  unfold push_sample
  rw [trim_history_length, List.length_append]
  rfl

theorem push_sample_drop (vs : List ℚ) (v : ℚ) :
    push_sample (vs.drop (vs.length - HISTORY)) v
      = (vs ++ [v]).drop (vs.length + 1 - HISTORY) := by
  rcases lt_or_le vs.length HISTORY with hlt | hge
  · have h0 : vs.length - HISTORY = 0 := by omega
    have h1 : vs.length + 1 - HISTORY = 0 := by omega
    have h2 : ¬ (vs ++ [v]).length > HISTORY := by
      rw [List.length_append]
      simp only [List.length_cons, List.length_nil]
      omega
    simp [push_sample, trim_history, h0, h1, h2]
  · have hd : (vs.drop (vs.length - HISTORY)).length = HISTORY := by
      rw [List.length_drop]
      omega
    have hlen : (vs.drop (vs.length - HISTORY) ++ [v]).length = HISTORY + 1 := by
      rw [List.length_append, hd]
      rfl
    have hgt : (vs.drop (vs.length - HISTORY) ++ [v]).length > HISTORY := by omega
    rw [push_sample, trim_history, if_pos hgt, hlen]
    have hone : HISTORY + 1 - HISTORY = 1 := by omega
    rw [hone, List.drop_append_eq_append_drop, List.drop_append_eq_append_drop,
        List.drop_drop]
    have h120 : HISTORY = 120 := rfl
    have e1 : 1 - (vs.drop (vs.length - HISTORY)).length = 0 := by omega
    have e2 : vs.length + 1 - HISTORY - vs.length = 0 := by omega
    have e3 : vs.length - HISTORY + 1 = vs.length + 1 - HISTORY := by omega
    rw [e1, e2, e3]

theorem foldl_push_sample (vs : List ℚ) :
    List.foldl push_sample [] vs = vs.drop (vs.length - HISTORY) := by
  induction vs using List.reverseRecOn with
  | nil => rfl
  | append_singleton ws v ih =>
      rw [List.foldl_append, ih]
      simp only [List.foldl_cons, List.foldl_nil]
      rw [push_sample_drop, List.length_append]
      rfl

/-- C1: for every sequence of values pushed into a rolling history
(`Vec::push` followed by `State::trim_history`, starting empty), after the
pushes the history's length is at most the capacity 120 and equals
`min (number of pushes) 120`, and the retained elements are exactly the
most recent `min (number of pushes) 120` pushed values in their original
relative order (the final segment of the push sequence). -/
theorem claim_C1_bounded_history (vs : List ℚ) :
    (List.foldl push_sample [] vs).length ≤ HISTORY ∧
    (List.foldl push_sample [] vs).length = min vs.length HISTORY ∧
    List.foldl push_sample [] vs = vs.drop (vs.length - HISTORY) := by
  refine ⟨?_, ?_, foldl_push_sample vs⟩ <;>
    rw [foldl_push_sample, List.length_drop] <;> omega

/-! ## How one tick acts on each history -/

theorem update_tick_cpu_history (s : State) (p : ProviderSample) :
    (update s (Message.tick p)).cpu_history = push_sample s.cpu_history (cpuVal p) := rfl

theorem update_tick_ram_history (s : State) (p : ProviderSample) :
    (update s (Message.tick p)).ram_history = push_sample s.ram_history (ramVal p) := rfl

theorem update_tick_down_history (s : State) (p : ProviderSample) :
    (update s (Message.tick p)).down_history = push_sample s.down_history (downVal p) := rfl

theorem update_tick_up_history (s : State) (p : ProviderSample) :
    (update s (Message.tick p)).up_history = push_sample s.up_history (upVal p) := rfl

theorem update_tick_battery_history (s : State) (p : ProviderSample) :
    (update s (Message.tick p)).battery_history
      = push_sample s.battery_history (batteryVal p) := rfl

theorem update_tick_disk_history (s : State) (p : ProviderSample) :
    (update s (Message.tick p)).disk_history = push_sample s.disk_history (diskVal p) := rfl

theorem new_cpu_history (p : ProviderSample) :
    (new p).cpu_history = push_sample [] (cpuVal p) := rfl

theorem new_ram_history (p : ProviderSample) :
    (new p).ram_history = push_sample [] (ramVal p) := rfl

theorem new_down_history (p : ProviderSample) :
    (new p).down_history = push_sample [] 0 := rfl

theorem new_up_history (p : ProviderSample) :
    (new p).up_history = push_sample [] 0 := rfl

theorem new_battery_history (p : ProviderSample) :
    (new p).battery_history = push_sample [] (batteryVal p) := rfl

theorem new_disk_history (p : ProviderSample) :
    (new p).disk_history = push_sample [] (diskVal p) := rfl

theorem run_cons (s : State) (m : Message) (ms : List Message) :
    run s (m :: ms) = run (update s m) ms := rfl

theorem run_ticks_ram_history (s : State) (ps : List ProviderSample) :
    (run s (ps.map Message.tick)).ram_history
      = List.foldl push_sample s.ram_history (ps.map ramVal) := by
  induction ps generalizing s with
  | nil => rfl
  | cons p ps ih =>
      rw [List.map_cons, run_cons, ih, update_tick_ram_history, List.map_cons,
          List.foldl_cons]

theorem run_new_ram_history (p₀ : ProviderSample) (ps : List ProviderSample) :
    (run (new p₀) (ps.map Message.tick)).ram_history
      = ((p₀ :: ps).map ramVal).drop (ps.length + 1 - HISTORY) := by
  rw [run_ticks_ram_history, new_ram_history]
  have h : List.foldl push_sample (push_sample [] (ramVal p₀)) (ps.map ramVal)
      = List.foldl push_sample [] ((p₀ :: ps).map ramVal) := rfl
  rw [h, foldl_push_sample]
  simp only [List.map_cons, List.length_cons, List.length_map]

/-! ## C9: tab selection -/

/-- C9: handling a view-selection event sets only the selected-view field
(`current_tab`), leaves every history, every reading value and all other
state fields unchanged, and triggers no sampling (no history changes). -/
theorem claim_C9_select_view_local (s : State) (t : Tab) :
    (update s (Message.tabSelected t)).current_tab = t ∧
    (update s (Message.tabSelected t)).cpu = s.cpu ∧
    (update s (Message.tabSelected t)).used_mem_mb = s.used_mem_mb ∧
    (update s (Message.tabSelected t)).total_mem_mb = s.total_mem_mb ∧
    (update s (Message.tabSelected t)).cpu_history = s.cpu_history ∧
    (update s (Message.tabSelected t)).ram_history = s.ram_history ∧
    (update s (Message.tabSelected t)).down_mbps = s.down_mbps ∧
    (update s (Message.tabSelected t)).up_mbps = s.up_mbps ∧
    (update s (Message.tabSelected t)).down_history = s.down_history ∧
    (update s (Message.tabSelected t)).up_history = s.up_history ∧
    (update s (Message.tabSelected t)).battery_percent = s.battery_percent ∧
    (update s (Message.tabSelected t)).battery_charging = s.battery_charging ∧
    (update s (Message.tabSelected t)).battery_history = s.battery_history ∧
    (update s (Message.tabSelected t)).disk_percent = s.disk_percent ∧
    (update s (Message.tabSelected t)).disk_used_gb = s.disk_used_gb ∧
    (update s (Message.tabSelected t)).disk_total_gb = s.disk_total_gb ∧
    (update s (Message.tabSelected t)).disk_history = s.disk_history :=
  ⟨rfl, rfl, rfl, rfl, rfl, rfl, rfl, rfl, rfl, rfl, rfl, rfl, rfl, rfl, rfl, rfl, rfl⟩

/-! ## C10: equal history lengths -/

theorem update_all_hist_len_eq (s : State) (m : Message) (h : all_hist_len_eq s) :
    all_hist_len_eq (update s m) := by
  obtain ⟨h1, h2, h3, h4, h5⟩ := h
  cases m with
  | tick p =>
      refine ⟨?_, ?_, ?_, ?_, ?_⟩ <;>
        rw [update_tick_cpu_history] <;>
        simp only [update_tick_ram_history, update_tick_down_history,
          update_tick_up_history, update_tick_battery_history,
          update_tick_disk_history, push_sample_length, h1, h2, h3, h4, h5]
  | tabSelected t => exact ⟨h1, h2, h3, h4, h5⟩

theorem run_all_hist_len_eq (s : State) (ms : List Message) (h : all_hist_len_eq s) :
    all_hist_len_eq (run s ms) := by
  induction ms generalizing s with
  | nil => exact h
  | cons m ms ih => exact ih (update s m) (update_all_hist_len_eq s m h)

theorem new_all_hist_len_eq (p : ProviderSample) : all_hist_len_eq (new p) := by
  refine ⟨?_, ?_, ?_, ?_, ?_⟩ <;>
    rw [new_cpu_history] <;>
    simp only [new_ram_history, new_down_history, new_up_history,
      new_battery_history, new_disk_history, push_sample_length]

/-- C10: after initialization (`new`) and after every subsequent event
(any interleaving of ticks and tab selections), the six enabled histories
(CPU, RAM, down-rate, up-rate, battery, disk) all have exactly the same
length: each tick pushes exactly one sample into every enabled history. -/
theorem claim_C10_equal_history_lengths (p₀ : ProviderSample) (ms : List Message) :
    ((run (new p₀) ms).ram_history.length = (run (new p₀) ms).cpu_history.length ∧
     (run (new p₀) ms).down_history.length = (run (new p₀) ms).cpu_history.length ∧
     (run (new p₀) ms).up_history.length = (run (new p₀) ms).cpu_history.length ∧
     (run (new p₀) ms).battery_history.length = (run (new p₀) ms).cpu_history.length ∧
     (run (new p₀) ms).disk_history.length = (run (new p₀) ms).cpu_history.length) ∧
    ∀ (s : State) (p : ProviderSample),
      (update s (Message.tick p)).cpu_history.length
          = min (s.cpu_history.length + 1) HISTORY ∧
      (update s (Message.tick p)).ram_history.length
          = min (s.ram_history.length + 1) HISTORY ∧
      (update s (Message.tick p)).down_history.length
          = min (s.down_history.length + 1) HISTORY ∧
      (update s (Message.tick p)).up_history.length
          = min (s.up_history.length + 1) HISTORY ∧
      (update s (Message.tick p)).battery_history.length
          = min (s.battery_history.length + 1) HISTORY ∧
      (update s (Message.tick p)).disk_history.length
          = min (s.disk_history.length + 1) HISTORY := by
  constructor
  · exact run_all_hist_len_eq (new p₀) ms (new_all_hist_len_eq p₀)
  · intro s p
    refine ⟨?_, ?_, ?_, ?_, ?_, ?_⟩ <;>
      simp only [update_tick_cpu_history, update_tick_ram_history,
        update_tick_down_history, update_tick_up_history,
        update_tick_battery_history, update_tick_disk_history, push_sample_length]

/-! ## C2, C3: startup and the end-to-end RAM scenario -/

theorem update_tick_used_mem_mb (s : State) (p : ProviderSample) :
    (update s (Message.tick p)).used_mem_mb = p.used_memory / 1024 := rfl

theorem update_tick_total_mem_mb (s : State) (p : ProviderSample) :
    (update s (Message.tick p)).total_mem_mb = p.total_memory / 1024 := rfl

theorem push_sample_nil (v : ℚ) : push_sample [] v = [v] := rfl

theorem push_sample_one (x v : ℚ) : push_sample [x] v = [x, v] := rfl

theorem ramVal_pC2 : ramVal pC2 = 50 := by
  norm_num [ramVal, ram_percent_of, pC2]

/-- C2 (counterexample): with the 4096/8192 provider, after tick 1 the RAM
history does not contain exactly the single element 50: `new` already
pushed a first sample before the tick, so it holds two elements. -/
theorem claim_C2_counterexample :
    (update (new pC2) (Message.tick pC2)).ram_history ≠ [50] ∧
    (update (new pC2) (Message.tick pC2)).ram_history = [50, 50] := by
  have h : (update (new pC2) (Message.tick pC2)).ram_history = [50, 50] := by
    rw [update_tick_ram_history, new_ram_history, push_sample_nil, ramVal_pC2,
        push_sample_one]
  rw [h]
  exact ⟨by simp, rfl⟩

/-- C2 (amended): with the 4096/8192 provider, after tick 1 the reading's
RAM percentage is 50 and the RAM history holds the two elements
`[50, 50]` — initialization already pushed one sample before the first
tick.  For any provider sequence `f`, after tick 121 from a cold start the
RAM history length is 120 and its first retained element is tick 2's
value: the initialization sample and tick 1's value have been evicted. -/
theorem claim_C2_amended_scenario :
    (ram_percent_of (update (new pC2) (Message.tick pC2)).used_mem_mb
        (update (new pC2) (Message.tick pC2)).total_mem_mb = 50 ∧
     (update (new pC2) (Message.tick pC2)).ram_history = [50, 50]) ∧
    ∀ f : ℕ → ProviderSample,
      (run (new (f 0)) (((List.range 121).map fun i => f (i + 1)).map
          Message.tick)).ram_history.length = 120 ∧
      (run (new (f 0)) (((List.range 121).map fun i => f (i + 1)).map
          Message.tick)).ram_history.head? = some (ramVal (f 2)) := by
  constructor
  · constructor
    · rw [update_tick_used_mem_mb, update_tick_total_mem_mb]
      norm_num [ram_percent_of, pC2]
    · rw [update_tick_ram_history, new_ram_history, push_sample_nil, ramVal_pC2,
          push_sample_one]
  · intro f
    rw [run_new_ram_history]
    constructor
    · rw [List.length_drop]
      simp only [List.length_map, List.length_cons, List.length_range]
      rfl
    · rw [List.head?_drop]
      simp only [List.length_map, List.length_range]
      have hidx : 121 + 1 - HISTORY = 2 := rfl
      rw [hidx, List.getElem?_map, List.getElem?_cons_succ, List.getElem?_map,
          List.getElem?_range (by omega : 1 < 121)]
      rfl

/-- C3 (counterexample): at startup `new` does not leave the histories
empty nor the reading zero-valued: with provider `pC3` the RAM history
already holds one element (50) and the CPU reading is 37. -/
theorem claim_C3_counterexample :
    (new pC3).ram_history = [50] ∧
    (new pC3).ram_history ≠ [] ∧
    (new pC3).cpu = 37 ∧
    (new pC3).cpu ≠ 0 := by
  have h : (new pC3).ram_history = [50] := by
    rw [new_ram_history]
    have : ramVal pC3 = 50 := ramVal_pC2
    rw [this, push_sample_nil]
  have hcpu : (new pC3).cpu = 37 := rfl
  exact ⟨h, by rw [h]; simp, hcpu, by rw [hcpu]; norm_num⟩

/-- C3 (amended): at startup the ViewModel is created from one initial
round of provider readings, before any tick runs: the Reading holds those
first provider values (not zeroes, except the network rates which start at
0), and every history holds exactly that one initial sample (not empty). -/
theorem claim_C3_initial_state (p : ProviderSample) :
    (new p).cpu_history = [p.global_cpu_usage] ∧
    (new p).ram_history = [ram_percent_of (p.used_memory / 1024) (p.total_memory / 1024)] ∧
    (new p).down_history = [0] ∧
    (new p).up_history = [0] ∧
    (new p).battery_history = [p.battery.1] ∧
    (new p).disk_history = [(get_disk_usage p.disks).1] ∧
    (new p).cpu = p.global_cpu_usage ∧
    (new p).used_mem_mb = p.used_memory / 1024 ∧
    (new p).total_mem_mb = p.total_memory / 1024 ∧
    (new p).down_mbps = 0 ∧
    (new p).up_mbps = 0 ∧
    (new p).battery_percent = p.battery.1 ∧
    (new p).battery_charging = p.battery.2 ∧
    (new p).disk_percent = (get_disk_usage p.disks).1 ∧
    (new p).disk_used_gb = (get_disk_usage p.disks).2.1 ∧
    (new p).disk_total_gb = (get_disk_usage p.disks).2.2 ∧
    (new p).current_tab = Tab.System := by
  refine ⟨?_, ?_, ?_, ?_, ?_, ?_, rfl, rfl, rfl, rfl, rfl, rfl, rfl, rfl, rfl, rfl, rfl⟩ <;>
    simp only [new_cpu_history, new_ram_history, new_down_history, new_up_history,
      new_battery_history, new_disk_history, push_sample_nil, cpuVal, ramVal,
      batteryVal, diskVal]

/-! ## C4: no skip-on-failure — every tick pushes to every history -/

theorem foldl_push_sample_length (vs : List ℚ) :
    (List.foldl push_sample [] vs).length = min vs.length HISTORY := by
  rw [foldl_push_sample, List.length_drop]
  omega

theorem run_ticks_cpu_history (s : State) (ps : List ProviderSample) :
    (run s (ps.map Message.tick)).cpu_history
      = List.foldl push_sample s.cpu_history (ps.map cpuVal) := by
  induction ps generalizing s with
  | nil => rfl
  | cons p ps ih =>
      rw [List.map_cons, run_cons, ih, update_tick_cpu_history, List.map_cons,
          List.foldl_cons]

theorem run_ticks_down_history (s : State) (ps : List ProviderSample) :
    (run s (ps.map Message.tick)).down_history
      = List.foldl push_sample s.down_history (ps.map downVal) := by
  induction ps generalizing s with
  | nil => rfl
  | cons p ps ih =>
      rw [List.map_cons, run_cons, ih, update_tick_down_history, List.map_cons,
          List.foldl_cons]

theorem run_new_cpu_length (p₀ : ProviderSample) (ps : List ProviderSample) :
    (run (new p₀) (ps.map Message.tick)).cpu_history.length
      = min (ps.length + 1) HISTORY := by
  rw [run_ticks_cpu_history, new_cpu_history]
  have h : List.foldl push_sample (push_sample [] (cpuVal p₀)) (ps.map cpuVal)
      = List.foldl push_sample [] (cpuVal p₀ :: ps.map cpuVal) := rfl
  rw [h, foldl_push_sample_length]
  simp only [List.length_cons, List.length_map]

theorem run_new_down_length (p₀ : ProviderSample) (ps : List ProviderSample) :
    (run (new p₀) (ps.map Message.tick)).down_history.length
      = min (ps.length + 1) HISTORY := by
  rw [run_ticks_down_history, new_down_history]
  have h : List.foldl push_sample (push_sample [] 0) (ps.map downVal)
      = List.foldl push_sample [] (0 :: ps.map downVal) := rfl
  rw [h, foldl_push_sample_length]
  simp only [List.length_cons, List.length_map]

/-- C4 (counterexample): network refresh "fails" on tick 5 of 6, yet the
network-rate history does not end up one entry shorter than the CPU
history — both hold 7 entries (6 ticks plus the initialization push),
because `update` pushes into every history on every tick. -/
theorem claim_C4_counterexample :
    (run (new pOk) (c4ps.map Message.tick)).down_history.length = 7 ∧
    (run (new pOk) (c4ps.map Message.tick)).cpu_history.length = 7 ∧
    ¬ ((run (new pOk) (c4ps.map Message.tick)).down_history.length + 1
        = (run (new pOk) (c4ps.map Message.tick)).cpu_history.length) := by
  have hd : (run (new pOk) (c4ps.map Message.tick)).down_history.length = 7 := by
    rw [run_new_down_length]
    rfl
  have hc : (run (new pOk) (c4ps.map Message.tick)).cpu_history.length = 7 := by
    rw [run_new_cpu_length]
    rfl
  rw [hd, hc]
  exact ⟨rfl, rfl, by omega⟩

/-- C4 (amended): the code has no skip-on-failure path: every tick pushes
exactly one entry into every enabled history whatever the provider
refreshes yield, so the network-rate history always has the same length
as the CPU history; in the six-tick scenario with the network refresh
failing on tick 5, both histories hold 7 entries (including the
initialization push) rather than the network one being one shorter. -/
theorem claim_C4_no_skip :
    (∀ (p₀ : ProviderSample) (ps : List ProviderSample),
      (run (new p₀) (ps.map Message.tick)).down_history.length
        = (run (new p₀) (ps.map Message.tick)).cpu_history.length) ∧
    ((run (new pOk) (c4ps.map Message.tick)).down_history.length = 7 ∧
     (run (new pOk) (c4ps.map Message.tick)).cpu_history.length = 7) := by
  refine ⟨fun p₀ ps => ?_, ?_, ?_⟩
  · rw [run_new_down_length, run_new_cpu_length]
  · rw [run_new_down_length]
    rfl
  · rw [run_new_cpu_length]
    rfl

/-! ## C5: counter deltas and rate conversion -/

/-- C5: for consecutive cumulative counter pairs the per-tick delta is
`(current.rx - previous.rx, current.tx - previous.tx)`; for
previous = (100, 50) and current = (180, 70) the delta is (80, 20), and
`update` converts the 80-byte delta to `80 * 8 / 1000000 = 0.00064` Mb/s
(and the 20-byte delta to 0.00016 Mb/s). -/
theorem claim_C5_delta :
    (∀ previous current : CounterPair,
      network_deltas [refresh_network previous current]
        = (current.rx - previous.rx, current.tx - previous.tx)) ∧
    network_deltas [refresh_network ⟨100, 50⟩ ⟨180, 70⟩] = (80, 20) ∧
    ∀ s : State,
      (update s (Message.tick pC5)).down_mbps = 64 / 100000 ∧
      (update s (Message.tick pC5)).up_mbps = 16 / 100000 := by
  refine ⟨fun previous current => ?_, rfl, fun s => ⟨?_, ?_⟩⟩
  · simp [network_deltas, refresh_network]
  · have h : (update s (Message.tick pC5)).down_mbps
        = ((network_deltas pC5.networks).1 : ℚ) * 8 / 1000000 := rfl
    rw [h]
    norm_num [network_deltas, pC5, refresh_network]
  · have h : (update s (Message.tick pC5)).up_mbps
        = ((network_deltas pC5.networks).2 : ℚ) * 8 / 1000000 := rfl
    rw [h]
    norm_num [network_deltas, pC5, refresh_network]

/-! ## C6: division-by-zero guards -/

/-- C6: both percentage computations are zero-guarded: each yields exactly
0 when the respective total is 0 (no error path exists — the functions are
total), and `used/total*100` otherwise. -/
theorem claim_C6_zero_guard :
    (∀ used total : ℕ,
      (total = 0 → ram_percent_of used total = 0) ∧
      (0 < total → ram_percent_of used total = (used : ℚ) / (total : ℚ) * 100)) ∧
    ∀ disks : List DiskData,
      (disks.foldl (fun a d => a + d.totalSpace) 0 = 0 → (get_disk_usage disks).1 = 0) ∧
      (0 < disks.foldl (fun a d => a + d.totalSpace) 0 →
        (get_disk_usage disks).1
          = ((disks.foldl (fun a d => a + (d.totalSpace - d.availableSpace)) 0 : ℕ) : ℚ)
            / ((disks.foldl (fun a d => a + d.totalSpace) 0 : ℕ) : ℚ) * 100) := by
  constructor
  · intro used total
    constructor
    · intro h
      simp [ram_percent_of, h]
    · intro h
      rw [ram_percent_of, if_pos h]
  · intro disks
    constructor
    · intro h
      simp [get_disk_usage, h]
    · intro h
      simp only [get_disk_usage]
      rw [if_pos h]

/-- Witness for C6 at the concrete zero inputs of the spec:
`percentage(used = 0, total = 0) == 0` for RAM, and an empty volume list
(total 0) for disk. -/
theorem claim_C6_witness :
    ram_percent_of 0 0 = 0 ∧ (get_disk_usage []).1 = 0 :=
  ⟨(claim_C6_zero_guard.1 0 0).1 rfl, (claim_C6_zero_guard.2 []).1 rfl⟩

/-! ## C7, C8: sparkline path construction -/

/-- C7: with at least 2 samples and a positive `max_value`, the sparkline
has one point per sample; point `i` sits at `x = i * (width / (count - 1))`
(even horizontal spacing) and `y = height - ratio * height` where `ratio`
is the sample clamped to `[0, max_value]` and normalised to `[0, 1]`.  In
particular samples `[0, 50, 100]` with `max_value = 100` map to
y-coordinates `[height, height / 2, 0]` at x-spacing `width / 2`. -/
theorem claim_C7_vertical_mapping :
    (∀ (data : List ℚ) (maxValue width height : ℚ),
      2 ≤ data.length → 0 < maxValue →
      (sparklinePoints data maxValue width height).length = data.length ∧
      ∀ i : ℕ, i < data.length →
        (sparklinePoints data maxValue width height)[i]?
          = some ((i : ℚ) * (width / ((data.length : ℚ) - 1)),
              height - min (max (data[i]?.getD 0) 0) maxValue / maxValue * height)) ∧
    ∀ width height : ℚ,
      sparklinePoints [0, 50, 100] 100 width height
        = [(0, height), (width / 2, height / 2), (width, 0)] := by
  constructor
  · intro data maxValue width height h2 hmax
    have hguard : ¬(data.length < 2 ∨ maxValue ≤ 0) := by
      push_neg
      exact ⟨h2, hmax⟩
    have hgt1 : data.length > 1 := by omega
    constructor
    · simp only [sparklinePoints, if_neg hguard]
      simp [List.enum_length]
    · intro i hi
      simp only [sparklinePoints, if_neg hguard, if_pos hgt1]
      rw [List.getElem?_map, List.getElem?_enum, List.getElem?_eq_getElem hi]
      simp only [Option.map_some', Option.getD_some, if_pos hmax]
  · intro width height
    have hguard : ¬(([0, 50, 100] : List ℚ).length < 2 ∨ (100 : ℚ) ≤ 0) := by
      norm_num
    simp only [sparklinePoints, if_neg hguard]
    norm_num [List.enum, List.enumFrom]
    exact ⟨by ring, by ring⟩

/-- Witness for C7: three samples `[0, 50, 100]`, `max_value = 100`,
viewport 3 × 7. -/
theorem claim_C7_witness :
    (sparklinePoints [0, 50, 100] 100 3 7).length = 3 ∧
    sparklinePoints [0, 50, 100] 100 3 7 = [(0, 7), (3 / 2, 7 / 2), (3, 0)] :=
  ⟨(claim_C7_vertical_mapping.1 [0, 50, 100] 100 3 7 (by norm_num) (by norm_num)).1,
   claim_C7_vertical_mapping.2 3 7⟩

/-- C8: with fewer than 2 samples or `max_value ≤ 0` the sparkline is the
empty path — an ordinary early return, not an error. -/
theorem claim_C8_empty_path (data : List ℚ) (maxValue width height : ℚ)
    (h : data.length < 2 ∨ maxValue ≤ 0) :
    sparklinePoints data maxValue width height = [] := by
  simp only [sparklinePoints, if_pos h]

/-- Witness for C8: the empty sequence and the single-element sequence
`[5]`, both with `max_value = 100`. -/
theorem claim_C8_witness :
    sparklinePoints [] 100 1 1 = [] ∧ sparklinePoints [5] 100 1 1 = [] :=
  ⟨claim_C8_empty_path [] 100 1 1 (Or.inl (by norm_num)),
   claim_C8_empty_path [5] 100 1 1 (Or.inl (by norm_num))⟩
